import Mathlib

/-!
Shallow embedding of the browser voice-conversation controller
(`VoiceConversation` class): continuous speech recognition with debounced
dispatch of finalized transcripts, voice-activity-detection driven barge-in
interruption of speech synthesis, a remote ask call, and conversation
start/stop resource management.

Modelling conventions:
* The controller instance's mutable fields become a record `VCState`;
  each event handler or method becomes a pure state-transition function.
* The host event loop is modelled by applying transition functions in the
  order the events fire.  Asynchronous callbacks (the silence timer, the
  fetch continuation, the utterance's onstart/onend) are separate
  transitions, applied strictly after the synchronous code that scheduled
  them, which is exactly the browser's single-threaded ordering.
* `setTimeout`/`clearTimeout` are modelled by a timer-id counter
  (`nextTimer`) and an optional pending id (`silenceTimeout`); a timer
  fires at most once, and only while it is the installed pending timer.
* Observable side effects (synthesis cancellations, texts handed to the
  speech synthesizer, rendered answers, dispatched questions, issued ask
  requests) are accumulated in log fields so that theorems can speak
  about "no side effect happened".
* DOM writes are reduced to the data they display (status class, user
  speech line, volume bar width, whiteboard contents); pure animations
  (`flashInterruption`) have no modelled state.
* The audio level (a float average of a byte array) is modelled as a
  natural number; only its comparison against the thresholds matters.
-/

/-- The payload of a successful `/ask` response:
`{ answer, images: [{page, path}], pages }`. -/
structure AnswerPayload where
  answer : String
  images : List (Nat × String)
  pages : List Nat
deriving DecidableEq

/-- The CSS status class written by `updateStatus` (second argument of
every `updateStatus` call in the source). -/
inductive Status where
  | idle
  | listening
  | processing
  | speaking
  | stopped
  | error
deriving DecidableEq

/-- The mutable fields of the `VoiceConversation` instance, together with
logs of the observable effects.  Browser handles (microphone source,
audio context, analyser, recognition engine) are modelled by their
presence/running state. -/
structure VCState where
  isConversationActive : Bool
  isSpeaking : Bool
  isProcessing : Bool
  /-- Pending silence/debounce timer handle (`this.silenceTimeout`). -/
  silenceTimeout : Option Nat
  /-- Fresh-id counter for `setTimeout`. -/
  nextTimer : Nat
  lastTranscript : String
  recognitionRunning : Bool
  /-- `this.microphone` is non-null. -/
  microphone : Bool
  /-- `this.audioContext` is non-null. -/
  audioContext : Bool
  /-- `this.analyser` is non-null. -/
  analyser : Bool
  /-- `speechSynthesis.speaking`: an utterance is queued or playing. -/
  synthSpeaking : Bool
  /-- `this.currentUtterance`, holding the cleaned text handed to it. -/
  currentUtterance : Option String
  /-- Status class last written by `updateStatus`. -/
  status : Status
  userSpeechText : String
  userSpeechInterim : Bool
  /-- Width of the volume bar (percentage). -/
  volumeLevel : Nat
  startDisabled : Bool
  stopDisabled : Bool
  /-- Number of `speechSynthesis.cancel()` calls performed. -/
  cancels : Nat
  /-- Texts handed to `SpeechSynthesisUtterance`, in order. -/
  spoken : List String
  /-- Answers rendered by `displayAnswer`, in order. -/
  displayedAnswers : List String
  /-- Whiteboard contents written by the latest `displayAnswer`. -/
  answerText : String
  renderedImages : List (Nat × String)
  pagesShown : List Nat
  /-- Questions sent to the `/ask` endpoint, in order. -/
  asks : List String
  /-- Transcripts the silence timer dispatched to `processQuestion`. -/
  dispatches : List String
deriving DecidableEq

/-- `this.SILENCE_THRESHOLD = 30`. -/
def silenceThreshold : Nat := 30

/-- `this.SILENCE_DURATION = 1500` (milliseconds of silence before
processing; the model keys timers by identity rather than by delay). -/
def silenceDurationMs : Nat := 1500

/-- `this.INTERRUPTION_THRESHOLD = 35`. -/
def interruptionThreshold : Nat := 35

/-- The generic apology of the `processQuestion` error path. -/
def errorMsg : String := "Sorry, I encountered an error. Please try again."

/-- `updateStatus(message, statusClass)`: writes the status line. -/
def updateStatus (s : VCState) (st : Status) : VCState :=
  { s with status := st }

/-- `updateUserSpeech(text, isInterim)`. -/
def updateUserSpeech (s : VCState) (text : String) (isInterim : Bool) : VCState :=
  { s with userSpeechText := text, userSpeechInterim := isInterim }

/-- `updateVolumeIndicator(level)`: bar width is `min(100, level)` percent. -/
def updateVolumeIndicator (s : VCState) (level : Nat) : VCState :=
  { s with volumeLevel := min 100 level }

/-- `stopSpeaking()`: cancel the synthesizer if it is speaking, then clear
the speaking flag. -/
def stopSpeaking (s : VCState) : VCState :=
  let s1 := if s.synthSpeaking = true then
    { s with synthSpeaking := false, cancels := s.cancels + 1 }
  else s
  { s1 with isSpeaking := false }

/-- `handleInterruption()`: bail out if not speaking; otherwise stop the
synthesizer, clear the pending silence timer, and show the listening
status.  (`flashInterruption` is a pure animation.) -/
def handleInterruption (s : VCState) : VCState :=
  if s.isSpeaking = false then s
  else
    let s1 := stopSpeaking s
    let s2 := { s1 with silenceTimeout := none }
    updateStatus s2 Status.listening

-- ==========================================================
-- Text cleaning performed by speak(): the five chained regex
-- replacements on the answer text.
-- ==========================================================

/-- The backtick character (code point 96) removed by the third
replacement. -/
def backquote : Char := Char.ofNat 96

/-- First replacement: every occurrence of two consecutive stars is
deleted (global, left-to-right, non-overlapping). -/
def stripBold : List Char → List Char
  | [] => []
  | '*' :: '*' :: rest => stripBold rest
  | c :: rest => c :: stripBold rest

/-- Second and third replacements: delete every occurrence of a single
character. -/
def stripAllChar (ch : Char) : List Char → List Char
  | [] => []
  | c :: rest =>
      if c = ch then stripAllChar ch rest else c :: stripAllChar ch rest

/-- Lazy scan for the closing paren of a markdown link: the first close
paren, with the dot of the pattern unable to cross a newline.  Returns
the remainder after the paren. -/
def findParenClose : List Char → Option (List Char)
  | [] => none
  | ')' :: rest => some rest
  | '\n' :: _ => none
  | _ :: rest => findParenClose rest

/-- Backtracking scan, after the opening bracket of a candidate link, for
a close bracket immediately followed by an open paren whose paren part
also closes; candidate close brackets are tried left to right and the
scan cannot cross a newline.  Returns the remainder after the whole
match. -/
def tryLink : List Char → Option (List Char)
  | [] => none
  | ']' :: '(' :: rest =>
      match findParenClose rest with
      | some r => some r
      | none => tryLink rest
  | '\n' :: _ => none
  | _ :: rest => tryLink rest

/-- Fourth replacement, global scan: at each opening bracket attempt a
link match and delete it, otherwise keep the character.  The fuel is the
length of the remaining input; every recursive call consumes at least
one character, so the fuel-exhausted branch is unreachable from
`stripLinks`. -/
def stripLinksF : Nat → List Char → List Char
  | _, [] => []
  | 0, l => l
  | fuel + 1, '[' :: rest =>
      match tryLink rest with
      | some r => stripLinksF fuel r
      | none => '[' :: stripLinksF fuel rest
  | fuel + 1, c :: rest => c :: stripLinksF fuel rest

/-- Global deletion of markdown links. -/
def stripLinks (l : List Char) : List Char := stripLinksF l.length l

/-- Whitespace characters of the heading pattern and of `trim`. -/
def isJsSpace (c : Char) : Bool :=
  c = ' ' || c = '\t' || c = '\n' || c = '\r' ||
  c = Char.ofNat 11 || c = Char.ofNat 12

/-- The `String.prototype.trim()` applied to every raw transcript:
whitespace removed from both ends. -/
def jsTrim (s : String) : String :=
  String.mk (((s.data.dropWhile isJsSpace).reverse.dropWhile isJsSpace).reverse)

/-- Match of one to `budget` hash signs followed by a whitespace
character, at the head of the input; returns the remainder after the
whitespace.  (Greedy and lazy quantifiers agree here: only the full hash
run can be followed by a non-hash character.) -/
def headingMatch : Nat → List Char → Option (List Char)
  | 0, _ => none
  | budget + 1, '#' :: rest =>
      match rest with
      | c :: rest2 =>
          if isJsSpace c then some rest2 else headingMatch budget rest
      | [] => none
  | _, _ => none

/-- Fifth replacement, global scan: delete every heading marker of one to
six hashes followed by a whitespace character.  Fuel as in
`stripLinksF`. -/
def stripHeadingsF : Nat → List Char → List Char
  | _, [] => []
  | 0, l => l
  | fuel + 1, '#' :: rest =>
      match headingMatch 6 ('#' :: rest) with
      | some r => stripHeadingsF fuel r
      | none => '#' :: stripHeadingsF fuel rest
  | fuel + 1, c :: rest => c :: stripHeadingsF fuel rest

/-- Global deletion of heading markers. -/
def stripHeadings (l : List Char) : List Char := stripHeadingsF l.length l

/-- The cleaned text built by `speak`: the five replacements in source
order (bold markers, remaining stars, backticks, markdown links, heading
markers). -/
def cleanText (text : String) : String :=
  String.mk
    (stripHeadings
      (stripLinks
        (stripAllChar backquote
          (stripAllChar '*'
            (stripBold text.data)))))

-- ==========================================================
-- Synthesis, rendering, processing, recognition events
-- ==========================================================

/-- `speak(text)`: stop any ongoing speech, clean the text, build the
utterance and hand it to the synthesizer.  (Rate, pitch, volume and
voice preference configure the host engine and have no modelled
effect.)  The speaking flag itself is set later by the utterance's
`onstart` event. -/
def speak (s : VCState) (text : String) : VCState :=
  let s1 := stopSpeaking s
  let clean := cleanText text
  { s1 with
      currentUtterance := some clean,
      spoken := s1.spoken ++ [clean],
      synthSpeaking := true }

/-- The utterance's `onstart` handler. -/
def utteranceOnStart (s : VCState) : VCState :=
  let s1 := { s with isSpeaking := true }
  updateStatus s1 Status.speaking

/-- The utterance's `onend` handler. -/
def utteranceOnEnd (s : VCState) : VCState :=
  let s1 := { s with isSpeaking := false }
  if s1.isConversationActive = true then updateStatus s1 Status.listening
  else s1

/-- The utterance's `onerror` handler. -/
def utteranceOnError (s : VCState) : VCState :=
  { s with isSpeaking := false }

/-- `displayAnswer(answer, images, pages)`: repaint the whiteboard with
the answer text verbatim, the image list, and the pages line (shown only
when non-empty). -/
def displayAnswer (s : VCState) (answer : String)
    (images : List (Nat × String)) (pages : List Nat) : VCState :=
  { s with
      answerText := answer,
      renderedImages := images,
      pagesShown := pages,
      displayedAnswers := s.displayedAnswers ++ [answer] }

/-- The synchronous prefix of `processQuestion(question)`: the guard
(`isProcessing`, empty question, question shorter than 3 characters)
returns without effect (`none`); otherwise the processing flag is set,
the thinking status shown, and the `/ask` request issued. -/
def processQuestionStart (s : VCState) (question : String) : Option VCState :=
  if s.isProcessing = true ∨ question = "" ∨ question.length < 3 then none
  else
    some { s with
      isProcessing := true,
      status := Status.processing,
      asks := s.asks ++ [question] }

/-- The continuation of `processQuestion` once the fetch settles:
on a successful response the answer is rendered and spoken; on a
rejected fetch or a non-ok response the apology is rendered and spoken;
the `finally` block then clears the processing flag.  Note that this
continuation never consults `isConversationActive`. -/
def processQuestionResume (s : VCState) (resp : Except Unit AnswerPayload) : VCState :=
  let s1 := match resp with
    | Except.ok d => speak (displayAnswer s d.answer d.images d.pages) d.answer
    | Except.error _ => speak (displayAnswer s errorMsg [] []) errorMsg
  { s1 with isProcessing := false }

/-- `processQuestion` run to completion with the given fetch outcome. -/
def processQuestion (s : VCState) (question : String)
    (resp : Except Unit AnswerPayload) : VCState :=
  match processQuestionStart s question with
  | none => s
  | some s1 => processQuestionResume s1 resp

/-- The `onresult` recognition handler: trim the transcript, show it,
interrupt the synthesizer when it is speaking and the transcript is
longer than 3 characters, and on a non-empty final transcript record it
and replace the pending silence timer with a fresh one. -/
def onresult (s : VCState) (rawTranscript : String) (isFinal : Bool) : VCState :=
  let transcript := jsTrim rawTranscript
  let s1 := updateUserSpeech s transcript (!isFinal)
  let s2 := if s1.isSpeaking = true ∧ 3 < transcript.length then
      handleInterruption s1
    else s1
  if isFinal = true ∧ 0 < transcript.length then
    { s2 with
        lastTranscript := transcript,
        silenceTimeout := some s2.nextTimer,
        nextTimer := s2.nextTimer + 1 }
  else s2

/-- The silence timer with handle `id` fires: only the currently
installed timer can fire (a cleared or already-fired handle does
nothing); the callback dispatches `this.lastTranscript` to
`processQuestion` and then clears `lastTranscript`. -/
def timerFire (s : VCState) (id : Nat) (resp : Except Unit AnswerPayload) : VCState :=
  if s.silenceTimeout = some id then
    let s0 := { s with
      silenceTimeout := none,
      dispatches := s.dispatches ++ [s.lastTranscript] }
    let s1 := processQuestion s0 s0.lastTranscript resp
    { s1 with lastTranscript := "" }
  else s

/-- The audio-level monitoring frame callback `checkAudioLevel`: bail out
when the conversation is inactive or the analyser is gone; otherwise
update the volume bar and, when the synthesizer is speaking and the
average level exceeds the interruption threshold, interrupt. -/
def checkAudioLevel (s : VCState) (level : Nat) : VCState :=
  if s.isConversationActive = false ∨ s.analyser = false then s
  else
    let s1 := updateVolumeIndicator s level
    if s1.isSpeaking = true ∧ interruptionThreshold < level then
      handleInterruption s1
    else s1

/-- The recognition engine's `onend` handler: restart while the
conversation is active. -/
def recognitionOnEnd (s : VCState) : VCState :=
  if s.isConversationActive = true then { s with recognitionRunning := true }
  else s

/-- `stopConversation()` in source order: clear the active flag, stop
recognition (exceptions caught), stop speaking, disconnect and null the
microphone, close and null the audio context, null the analyser, clear
the silence timer, show the stopped status, toggle the buttons, clear
the user speech line and the volume bar. -/
def stopConversation (s : VCState) : VCState :=
  let s1 := { s with isConversationActive := false }
  let s2 := { s1 with recognitionRunning := false }
  let s3 := stopSpeaking s2
  let s4 := if s3.microphone = true then { s3 with microphone := false } else s3
  let s5 := if s4.audioContext = true then { s4 with audioContext := false } else s4
  let s6 := { s5 with analyser := false }
  let s7 := { s6 with silenceTimeout := none }
  let s8 := updateStatus s7 Status.stopped
  let s9 := { s8 with startDisabled := false, stopDisabled := true }
  let s10 := updateUserSpeech s9 "" false
  updateVolumeIndicator s10 0

/-- A concrete controller state: an active conversation, listening, with
all capture resources live and every effect log empty. -/
def sample0 : VCState :=
  { isConversationActive := true
    isSpeaking := false
    isProcessing := false
    silenceTimeout := none
    nextTimer := 0
    lastTranscript := ""
    recognitionRunning := true
    microphone := true
    audioContext := true
    analyser := true
    synthSpeaking := false
    currentUtterance := none
    status := Status.listening
    userSpeechText := ""
    userSpeechInterim := false
    volumeLevel := 0
    startDisabled := true
    stopDisabled := false
    cancels := 0
    spoken := []
    displayedAnswers := []
    answerText := ""
    renderedImages := []
    pagesShown := []
    asks := []
    dispatches := [] }

/-- A concrete state in which the assistant is speaking an utterance and
a silence timer is pending. -/
def sampleSpeaking : VCState :=
  { sample0 with
      isSpeaking := true
      synthSpeaking := true
      currentUtterance := some "hello"
      status := Status.speaking
      silenceTimeout := some 0
      nextTimer := 1
      lastTranscript := "tell me more" }

-- ==========================================================
-- Lemmas about the text cleaning
-- ==========================================================

/-- Deleting a character really deletes every occurrence of it. -/
theorem stripAllChar_not_mem (ch : Char) (l : List Char) : ch ∉ stripAllChar ch l := by
  induction l with
  | nil => simp [stripAllChar]
  | cons c rest ih =>
      by_cases h : c = ch
      · simpa [stripAllChar, h] using ih
      · simp only [stripAllChar, if_neg h, List.mem_cons]
        exact fun hc => (hc.elim (fun he => h he.symm) ih)

/-- Deleting a character introduces no character. -/
theorem mem_stripAllChar (ch : Char) (l : List Char) (c : Char)
    (h : c ∈ stripAllChar ch l) : c ∈ l := by
  induction l with
  | nil => simp [stripAllChar] at h
  | cons c' rest ih =>
      by_cases hc : c' = ch
      · simp only [stripAllChar, if_pos hc] at h
        exact List.mem_cons_of_mem _ (ih h)
      · simp only [stripAllChar, if_neg hc, List.mem_cons] at h
        rcases h with h | h
        · exact h ▸ List.mem_cons_self _ _
        · exact List.mem_cons_of_mem _ (ih h)

/-- Deleting bold markers introduces no character. -/
theorem mem_stripBold (l : List Char) (c : Char) (h : c ∈ stripBold l) : c ∈ l := by
  induction l using stripBold.induct with
  | case1 => simp [stripBold] at h
  | case2 rest ih =>
      simp only [stripBold] at h
      exact List.mem_cons_of_mem _ (List.mem_cons_of_mem _ (ih h))
  | case3 c' rest hne ih =>
      simp only [stripBold, List.mem_cons] at h
      rcases h with h | h
      · exact h ▸ List.mem_cons_self _ _
      · exact List.mem_cons_of_mem _ (ih h)

/-- The paren scan returns a suffix of its input. -/
theorem findParenClose_mem (l r : List Char) (h : findParenClose l = some r)
    (c : Char) (hc : c ∈ r) : c ∈ l := by
  induction l using findParenClose.induct with
  | case1 => simp [findParenClose] at h
  | case2 rest =>
      simp only [findParenClose, Option.some.injEq] at h
      exact List.mem_cons_of_mem _ (h ▸ hc)
  | case3 rest => simp [findParenClose] at h
  | case4 c' rest h1 h2 ih =>
      rw [findParenClose] at h
      · exact List.mem_cons_of_mem _ (ih h)
      · exact h1
      · exact h2

/-- A matched link is a contiguous part of the input: its remainder only
holds characters of the input. -/
theorem tryLink_mem (l r : List Char) (h : tryLink l = some r)
    (c : Char) (hc : c ∈ r) : c ∈ l := by
  induction l using tryLink.induct with
  | case1 => simp [tryLink] at h
  | case2 rest r' hfind =>
      simp only [tryLink, hfind, Option.some.injEq] at h
      subst h
      exact List.mem_cons_of_mem _ (List.mem_cons_of_mem _
        (findParenClose_mem rest r' hfind c hc))
  | case3 rest hfind ih =>
      simp only [tryLink, hfind] at h
      exact List.mem_cons_of_mem _ (List.mem_cons_of_mem _ (ih h))
  | case4 rest => simp [tryLink] at h
  | case5 c' rest h1 h2 ih =>
      rw [tryLink] at h
      · exact List.mem_cons_of_mem _ (ih h)
      · exact h1
      · exact h2

/-- Deleting links introduces no character. -/
theorem mem_stripLinksF (n : Nat) (l : List Char) (c : Char)
    (h : c ∈ stripLinksF n l) : c ∈ l := by
  induction n, l using stripLinksF.induct with
  | case1 t => simp [stripLinksF] at h
  | case2 l hne =>
      rw [stripLinksF] at h
      · exact h
      · exact hne
  | case3 fuel rest r' htry ih =>
      simp only [stripLinksF, htry] at h
      exact List.mem_cons_of_mem _ (tryLink_mem rest r' htry c (ih h))
  | case4 fuel rest htry ih =>
      simp only [stripLinksF, htry, List.mem_cons] at h
      rcases h with h | h
      · exact h ▸ List.mem_cons_self _ _
      · exact List.mem_cons_of_mem _ (ih h)
  | case5 fuel c' rest hne ih =>
      rw [stripLinksF] at h
      · rcases List.mem_cons.mp h with h | h
        · exact h ▸ List.mem_cons_self _ _
        · exact List.mem_cons_of_mem _ (ih h)
      · exact hne

/-- Deleting links introduces no character. -/
theorem mem_stripLinks (l : List Char) (c : Char) (h : c ∈ stripLinks l) : c ∈ l :=
  mem_stripLinksF l.length l c h

/-- A matched heading marker only consumes input characters. -/
theorem headingMatch_mem (b : Nat) (l r : List Char) (h : headingMatch b l = some r)
    (c : Char) (hc : c ∈ r) : c ∈ l := by
  induction b, l using headingMatch.induct with
  | case1 x => simp [headingMatch] at h
  | case2 budget c2 rest2 hsp =>
      simp only [headingMatch, hsp, if_true, Option.some.injEq] at h
      subst h
      exact List.mem_cons_of_mem _ (List.mem_cons_of_mem _ hc)
  | case3 budget c2 rest2 hsp ih =>
      simp only [headingMatch, if_neg hsp] at h
      exact List.mem_cons_of_mem _ (ih h)
  | case4 budget => simp [headingMatch] at h
  | case5 t x h0 hs =>
      rw [headingMatch] at h
      · simp at h
      · exact h0
      · exact hs

/-- Deleting heading markers introduces no character. -/
theorem mem_stripHeadingsF (n : Nat) (l : List Char) (c : Char)
    (h : c ∈ stripHeadingsF n l) : c ∈ l := by
  induction n, l using stripHeadingsF.induct with
  | case1 t => simp [stripHeadingsF] at h
  | case2 l hne =>
      rw [stripHeadingsF] at h
      · exact h
      · exact hne
  | case3 fuel rest r' hm ih =>
      simp only [stripHeadingsF, hm] at h
      exact headingMatch_mem 6 ('#' :: rest) r' hm c (ih h)
  | case4 fuel rest hm ih =>
      simp only [stripHeadingsF, hm, List.mem_cons] at h
      rcases h with h | h
      · exact h ▸ List.mem_cons_self _ _
      · exact List.mem_cons_of_mem _ (ih h)
  | case5 fuel c' rest hne ih =>
      rw [stripHeadingsF] at h
      · rcases List.mem_cons.mp h with h | h
        · exact h ▸ List.mem_cons_self _ _
        · exact List.mem_cons_of_mem _ (ih h)
      · exact hne

/-- Deleting heading markers introduces no character. -/
theorem mem_stripHeadings (l : List Char) (c : Char) (h : c ∈ stripHeadings l) : c ∈ l :=
  mem_stripHeadingsF l.length l c h

/-- The cleaned text contains no star: bold and italic markers are gone. -/
theorem cleanText_no_star (text : String) : '*' ∉ (cleanText text).data := by
  intro hmem
  simp only [cleanText] at hmem
  exact stripAllChar_not_mem '*' _
    (mem_stripAllChar backquote _ '*' (mem_stripLinks _ '*' (mem_stripHeadings _ '*' hmem)))

/-- The cleaned text contains no backtick: inline-code markers are gone. -/
theorem cleanText_no_backquote (text : String) : backquote ∉ (cleanText text).data := by
  intro hmem
  simp only [cleanText] at hmem
  exact stripAllChar_not_mem backquote _
    (mem_stripLinks _ backquote (mem_stripHeadings _ backquote hmem))

-- ==========================================================
-- Lemmas about the controller transitions
-- ==========================================================

/-- `handleInterruption` never touches the question pipeline or the
conversation flag: timers aside, it only stops speech and updates UI. -/
theorem handleInterruption_fields (s : VCState) :
    (handleInterruption s).nextTimer = s.nextTimer ∧
    (handleInterruption s).lastTranscript = s.lastTranscript ∧
    (handleInterruption s).dispatches = s.dispatches ∧
    (handleInterruption s).asks = s.asks ∧
    (handleInterruption s).isConversationActive = s.isConversationActive ∧
    (handleInterruption s).isProcessing = s.isProcessing ∧
    (handleInterruption s).spoken = s.spoken ∧
    (handleInterruption s).displayedAnswers = s.displayedAnswers := by
  simp only [handleInterruption, stopSpeaking, updateStatus]
  split
  · simp
  · split <;> simp

/-- After `handleInterruption`, the controller is not speaking. -/
theorem handleInterruption_not_speaking (s : VCState) :
    (handleInterruption s).isSpeaking = false := by
  simp only [handleInterruption, stopSpeaking, updateStatus]
  split
  · assumption
  · split <;> simp

/-- Effect of a non-empty finalized transcript on the debounce state:
the transcript (trimmed) replaces `lastTranscript`, the pending timer is
replaced by a fresh one, and no question is asked or dispatched yet. -/
theorem onresult_final_fields (s : VCState) (t : String)
    (h : 0 < (jsTrim t).length) :
    (onresult s t true).lastTranscript = jsTrim t ∧
    (onresult s t true).silenceTimeout = some s.nextTimer ∧
    (onresult s t true).nextTimer = s.nextTimer + 1 ∧
    (onresult s t true).dispatches = s.dispatches ∧
    (onresult s t true).asks = s.asks := by
  simp only [onresult, updateUserSpeech]
  have hint := handleInterruption_fields
    { s with userSpeechText := jsTrim t, userSpeechInterim := !true }
  split
  · split
    · simp_all
    · simp_all
  · simp_all

/-- `onresult` never issues an ask request by itself. -/
theorem onresult_asks (s : VCState) (t : String) (isFinal : Bool) :
    (onresult s t isFinal).asks = s.asks := by
  simp only [onresult, updateUserSpeech]
  have hint := handleInterruption_fields
    { s with userSpeechText := jsTrim t, userSpeechInterim := !isFinal }
  split <;> split <;> simp_all

/-- Characterization of a passed guard: the state `processQuestionStart`
hands to the fetch continuation. -/
theorem processQuestionStart_some (s : VCState) (q : String) (s1 : VCState)
    (h : processQuestionStart s q = some s1) :
    s1 = { s with
      isProcessing := true,
      status := Status.processing,
      asks := s.asks ++ [q] } := by
  simp only [processQuestionStart] at h
  split at h
  · simp at h
  · injection h with h
    exact h.symm

/-- The fetch continuation never touches the debounce timer, the dispatch
log, the conversation flag, or the recognition engine. -/
theorem processQuestionResume_fields (s : VCState) (resp : Except Unit AnswerPayload) :
    (processQuestionResume s resp).silenceTimeout = s.silenceTimeout ∧
    (processQuestionResume s resp).dispatches = s.dispatches ∧
    (processQuestionResume s resp).isConversationActive = s.isConversationActive ∧
    (processQuestionResume s resp).recognitionRunning = s.recognitionRunning := by
  cases resp with
  | ok d =>
      simp only [processQuestionResume, speak, displayAnswer, stopSpeaking]
      split <;> simp
  | error e =>
      simp only [processQuestionResume, speak, displayAnswer, stopSpeaking]
      split <;> simp

/-- `processQuestion` never touches the debounce timer, the dispatch log,
the conversation flag, or the recognition engine. -/
theorem processQuestion_fields (s : VCState) (q : String)
    (resp : Except Unit AnswerPayload) :
    (processQuestion s q resp).silenceTimeout = s.silenceTimeout ∧
    (processQuestion s q resp).dispatches = s.dispatches ∧
    (processQuestion s q resp).isConversationActive = s.isConversationActive ∧
    (processQuestion s q resp).recognitionRunning = s.recognitionRunning := by
  unfold processQuestion
  cases h : processQuestionStart s q with
  | none => simp
  | some s1 =>
      rw [processQuestionStart_some s q s1 h]
      have hr := processQuestionResume_fields
        { s with
          isProcessing := true,
          status := Status.processing,
          asks := s.asks ++ [q] } resp
      simpa using hr

/-- The guard of `processQuestion`: a question shorter than 3 characters
is returned from immediately, with no effect at all. -/
theorem processQuestion_short (s : VCState) (q : String)
    (resp : Except Unit AnswerPayload) (h : q.length < 3) :
    processQuestion s q resp = s := by
  simp [processQuestion, processQuestionStart, h]

/-- Folding a block of non-empty finalized transcripts: the timer counter
advances once per transcript and nothing is dispatched or asked along
the way. -/
theorem foldl_onresult_fields (ts : List String) :
    ∀ s : VCState, (∀ t ∈ ts, 0 < (jsTrim t).length) →
      (ts.foldl (fun a u => onresult a u true) s).nextTimer = s.nextTimer + ts.length ∧
      (ts.foldl (fun a u => onresult a u true) s).dispatches = s.dispatches ∧
      (ts.foldl (fun a u => onresult a u true) s).asks = s.asks := by
  induction ts with
  | nil => intro s _; simp
  | cons t ts ih =>
      intro s h
      have h1 := onresult_final_fields s t (h t (List.mem_cons_self _ _))
      have h2 := ih (onresult s t true) (fun u hu => h u (List.mem_cons_of_mem _ hu))
      simp only [List.foldl_cons, List.length_cons]
      refine ⟨?_, ?_, ?_⟩
      · omega
      · rw [h2.2.1, h1.2.2.2.1]
      · rw [h2.2.2, h1.2.2.2.2]

/-- When the controller is not speaking, `handleInterruption` bails out
with no effect at all. -/
theorem handleInterruption_quiet (s : VCState) (h : s.isSpeaking = false) :
    handleInterruption s = s := by
  rw [handleInterruption, if_pos h]

/-- When the controller is speaking, `handleInterruption` stops speech,
cancels the synthesizer, clears the pending timer and shows the
listening status; the cancel counter grows exactly when the synthesizer
was live. -/
theorem handleInterruption_speaking (s : VCState) (hs : s.isSpeaking = true) :
    (handleInterruption s).isSpeaking = false ∧
    (handleInterruption s).synthSpeaking = false ∧
    (handleInterruption s).silenceTimeout = none ∧
    (handleInterruption s).status = Status.listening ∧
    (s.synthSpeaking = true → (handleInterruption s).cancels = s.cancels + 1) ∧
    (handleInterruption s).nextTimer = s.nextTimer := by
  simp only [handleInterruption, stopSpeaking, updateStatus, hs]
  split
  · simp_all
  · split <;> simp_all

/-- A frame callback while not speaking never cancels anything and never
starts speaking. -/
theorem checkAudioLevel_quiet (s : VCState) (level : Nat) (h : s.isSpeaking = false) :
    (checkAudioLevel s level).cancels = s.cancels ∧
    (checkAudioLevel s level).isSpeaking = false := by
  simp only [checkAudioLevel, updateVolumeIndicator]
  split
  · exact ⟨rfl, h⟩
  · split
    · simp_all
    · simp [h]

/-- Any run of frame callbacks while not speaking never cancels anything
and never starts speaking. -/
theorem foldl_checkAudioLevel_quiet (levels : List Nat) :
    ∀ s : VCState, s.isSpeaking = false →
      (levels.foldl checkAudioLevel s).cancels = s.cancels ∧
      (levels.foldl checkAudioLevel s).isSpeaking = false := by
  induction levels with
  | nil => exact fun s h => ⟨rfl, h⟩
  | cons lv rest ih =>
      intro s h
      have h1 := checkAudioLevel_quiet s lv h
      have h2 := ih (checkAudioLevel s lv) h1.2
      simp only [List.foldl_cons]
      exact ⟨h2.1.trans h1.1, h2.2⟩

/-- Claim C6: `handleInterruption` is idempotent: when the controller is
not in the Speaking state it returns immediately with no side effects,
so any number of consecutive above-threshold audio samples after the
first cancellation (which leaves the controller not speaking) produce no
further cancellation side effects. -/
theorem C6_interruption_idempotent (s : VCState) (levels : List Nat) :
    (s.isSpeaking = false → handleInterruption s = s) ∧
    handleInterruption (handleInterruption s) = handleInterruption s ∧
    (s.isSpeaking = false →
      (levels.foldl checkAudioLevel s).cancels = s.cancels ∧
      (levels.foldl checkAudioLevel s).isSpeaking = false) := by
  refine ⟨handleInterruption_quiet s, ?_, fun h => foldl_checkAudioLevel_quiet levels s h⟩
  exact handleInterruption_quiet (handleInterruption s) (handleInterruption_not_speaking s)

/-- Claim C6 witness: on a concrete non-speaking state, a repeated
interruption trigger and a burst of loud audio samples change nothing. -/
theorem C6_witness :
    handleInterruption sample0 = sample0 ∧
    handleInterruption (handleInterruption sampleSpeaking) = handleInterruption sampleSpeaking ∧
    ([40, 50, 60].foldl checkAudioLevel sample0).cancels = sample0.cancels := by
  have h0 := C6_interruption_idempotent sample0 [40, 50, 60]
  have h1 := C6_interruption_idempotent sampleSpeaking []
  exact ⟨h0.1 (by decide), h1.2.1, (h0.2.2 (by decide)).1⟩

/-- Claim C9: `stopConversation` is idempotent (a second call produces
the identical end state), and after it returns the conversation is
inactive, recognition is stopped, synthesis is cancelled, the
microphone, audio context and analyser are released, and the pending
debounce timer is cleared.  (Exceptions from stopping an already-stopped
recognizer are caught in the source; the model is total.) -/
theorem C9_stop_idempotent (s : VCState) :
    stopConversation (stopConversation s) = stopConversation s ∧
    (stopConversation s).isConversationActive = false ∧
    (stopConversation s).recognitionRunning = false ∧
    (stopConversation s).isSpeaking = false ∧
    (stopConversation s).synthSpeaking = false ∧
    (stopConversation s).microphone = false ∧
    (stopConversation s).audioContext = false ∧
    (stopConversation s).analyser = false ∧
    (stopConversation s).silenceTimeout = none := by
  simp only [stopConversation, stopSpeaking, updateStatus, updateUserSpeech,
    updateVolumeIndicator]
  by_cases h1 : s.synthSpeaking = true <;> by_cases h2 : s.microphone = true <;>
    by_cases h3 : s.audioContext = true <;> simp [h1, h2, h3]

/-- Claim C5: a transcript whose trimmed length is under 3 characters
triggers neither the interruption action (no cancellation, no change to
the speaking flags or the status) nor processing (the `processQuestion`
guard returns before the ask request is issued). -/
theorem C5_short_transcript (s : VCState) (raw : String) (isFinal : Bool)
    (h : (jsTrim raw).length < 3) :
    (onresult s raw isFinal).cancels = s.cancels ∧
    (onresult s raw isFinal).isSpeaking = s.isSpeaking ∧
    (onresult s raw isFinal).synthSpeaking = s.synthSpeaking ∧
    (onresult s raw isFinal).status = s.status ∧
    processQuestionStart s (jsTrim raw) = none := by
  have hnot : ¬(s.isSpeaking = true ∧ 3 < (jsTrim raw).length) := by
    rintro ⟨-, hlen⟩; omega
  refine ⟨?_, ?_, ?_, ?_, by simp [processQuestionStart, h]⟩ <;>
    simp only [onresult, updateUserSpeech, if_neg hnot] <;> split <;> simp

/-- Claim C5 witness: the two-character utterance "hm" while the
assistant speaks cancels nothing and is never asked. -/
theorem C5_witness :
    (onresult sampleSpeaking "hm" true).cancels = sampleSpeaking.cancels ∧
    (onresult sampleSpeaking "hm" true).isSpeaking = sampleSpeaking.isSpeaking ∧
    processQuestionStart sampleSpeaking (jsTrim "hm") = none := by
  have h := C5_short_transcript sampleSpeaking "hm" true (by decide)
  exact ⟨h.1, h.2.1, h.2.2.2.2⟩

/-- Claim C3: within a single request cycle the answer's synthesis
begins only after that request's processing has completed.  While the
request runs the processing flag is set; the `finally` clause of
`processQuestion` clears it as part of the same continuation that called
`speak`, and the utterance's `onstart` (the event that asserts the
speaking flag) is delivered by the event loop strictly afterwards — so
at the moment this cycle's answer starts speaking, `isProcessing` is
already false. -/
theorem C3_speaking_after_processing (s : VCState) (q : String) (s1 : VCState)
    (resp : Except Unit AnswerPayload)
    (h : processQuestionStart s q = some s1) :
    s1.isProcessing = true ∧
    (processQuestionResume s1 resp).isProcessing = false ∧
    (utteranceOnStart (processQuestionResume s1 resp)).isSpeaking = true ∧
    (utteranceOnStart (processQuestionResume s1 resp)).isProcessing = false := by
  have hs1 := processQuestionStart_some s q s1 h
  exact ⟨by rw [hs1], rfl, rfl, rfl⟩

/-- Claim C3 witness: a concrete request cycle for "what is a monad". -/
theorem C3_witness :
    ({ sample0 with
        isProcessing := true,
        status := Status.processing,
        asks := ["what is a monad"] } : VCState).isProcessing = true ∧
    (utteranceOnStart (processQuestionResume
      { sample0 with
        isProcessing := true,
        status := Status.processing,
        asks := ["what is a monad"] } (Except.error ()))).isSpeaking = true ∧
    (utteranceOnStart (processQuestionResume
      { sample0 with
        isProcessing := true,
        status := Status.processing,
        asks := ["what is a monad"] } (Except.error ()))).isProcessing = false := by
  have h := C3_speaking_after_processing sample0 "what is a monad"
    { sample0 with
      isProcessing := true,
      status := Status.processing,
      asks := ["what is a monad"] } (Except.error ()) (by decide)
  exact ⟨h.1, h.2.2.1, h.2.2.2⟩

/-- The error path of the fetch continuation: apology rendered and handed
to synthesis, processing flag cleared, conversation flag untouched. -/
theorem processQuestionResume_error (s : VCState) :
    (processQuestionResume s (Except.error ())).displayedAnswers
      = s.displayedAnswers ++ [errorMsg] ∧
    (processQuestionResume s (Except.error ())).spoken
      = s.spoken ++ [cleanText errorMsg] ∧
    (processQuestionResume s (Except.error ())).isProcessing = false ∧
    (processQuestionResume s (Except.error ())).isConversationActive
      = s.isConversationActive := by
  simp only [processQuestionResume, speak, displayAnswer, stopSpeaking]
  split <;> simp

/-- The success path of the fetch continuation: the answer is rendered
and handed to synthesis unconditionally — in particular without
consulting the conversation-active flag. -/
theorem processQuestionResume_ok (s : VCState) (d : AnswerPayload) :
    (processQuestionResume s (Except.ok d)).displayedAnswers
      = s.displayedAnswers ++ [d.answer] ∧
    (processQuestionResume s (Except.ok d)).answerText = d.answer ∧
    (processQuestionResume s (Except.ok d)).spoken
      = s.spoken ++ [cleanText d.answer] ∧
    (processQuestionResume s (Except.ok d)).synthSpeaking = true ∧
    (processQuestionResume s (Except.ok d)).isProcessing = false ∧
    (processQuestionResume s (Except.ok d)).isConversationActive
      = s.isConversationActive := by
  simp only [processQuestionResume, speak, displayAnswer, stopSpeaking]
  split <;> simp

/-- Claim C7: a failed `/ask` request (fetch rejection or non-ok status,
both reaching the catch block) renders and speaks the generic apology,
clears the processing flag, leaves the conversation active, and — once
the spoken apology's utterance ends — the status is Listening again. -/
theorem C7_ask_failure (s : VCState) (q : String) (s1 : VCState)
    (hact : s.isConversationActive = true)
    (h : processQuestionStart s q = some s1) :
    (processQuestionResume s1 (Except.error ())).displayedAnswers
      = s1.displayedAnswers ++ [errorMsg] ∧
    (processQuestionResume s1 (Except.error ())).spoken
      = s1.spoken ++ [cleanText errorMsg] ∧
    (processQuestionResume s1 (Except.error ())).isProcessing = false ∧
    (processQuestionResume s1 (Except.error ())).isConversationActive = true ∧
    (utteranceOnEnd (utteranceOnStart
        (processQuestionResume s1 (Except.error ())))).status = Status.listening ∧
    (utteranceOnEnd (utteranceOnStart
        (processQuestionResume s1 (Except.error ())))).isSpeaking = false := by
  have hs1 := processQuestionStart_some s q s1 h
  have hre := processQuestionResume_error s1
  have hact1 : s1.isConversationActive = true := by rw [hs1]; exact hact
  have hract : (processQuestionResume s1 (Except.error ())).isConversationActive = true :=
    hre.2.2.2.trans hact1
  refine ⟨hre.1, hre.2.1, hre.2.2.1, hract, ?_, ?_⟩ <;>
    simp [utteranceOnEnd, utteranceOnStart, updateStatus, hract]

/-- Claim C7 witness: a concrete failing request from the listening
sample state. -/
theorem C7_witness :
    (processQuestionResume
      { sample0 with
        isProcessing := true,
        status := Status.processing,
        asks := ["what is a functor"] } (Except.error ())).displayedAnswers
      = ["Sorry, I encountered an error. Please try again."] ∧
    (utteranceOnEnd (utteranceOnStart (processQuestionResume
      { sample0 with
        isProcessing := true,
        status := Status.processing,
        asks := ["what is a functor"] } (Except.error ())))).status = Status.listening := by
  have h := C7_ask_failure sample0 "what is a functor"
    { sample0 with
      isProcessing := true,
      status := Status.processing,
      asks := ["what is a functor"] } rfl (by decide)
  exact ⟨h.1, h.2.2.2.2.1⟩

/-- Claim C2 counterexample: the fetch continuation of `processQuestion`
does not consult the conversation-active flag.  Starting from the sample
state with a request in flight, `stopConversation()` runs, and then the
late response arrives: the conversation is inactive, yet the late answer
is rendered on the whiteboard and handed to the synthesizer (which is
speaking again afterwards) — rendering and synthesis side effects that
the claim says cannot happen. -/
theorem C2_counterexample :
    (stopConversation { sample0 with isProcessing := true }).isConversationActive
      = false ∧
    (processQuestionResume (stopConversation { sample0 with isProcessing := true })
        (Except.ok { answer := "Paris is the capital.", images := [], pages := [12] })).displayedAnswers
      = ["Paris is the capital."] ∧
    (processQuestionResume (stopConversation { sample0 with isProcessing := true })
        (Except.ok { answer := "Paris is the capital.", images := [], pages := [12] })).spoken
      = ["Paris is the capital."] ∧
    (processQuestionResume (stopConversation { sample0 with isProcessing := true })
        (Except.ok { answer := "Paris is the capital.", images := [], pages := [12] })).synthSpeaking
      = true := by decide

/-- Claim C2 as amended: a late `/ask` response arriving after
`stopConversation()` is NOT ignored: the continuation renders the answer
and hands it to the synthesizer without checking the conversation-active
flag; only the processing flag is cleared, and the conversation itself
stays inactive. -/
theorem C2_late_response_not_guarded (s : VCState) (d : AnswerPayload)
    (hstop : s.isConversationActive = false) :
    (processQuestionResume s (Except.ok d)).displayedAnswers
      = s.displayedAnswers ++ [d.answer] ∧
    (processQuestionResume s (Except.ok d)).spoken
      = s.spoken ++ [cleanText d.answer] ∧
    (processQuestionResume s (Except.ok d)).synthSpeaking = true ∧
    (processQuestionResume s (Except.ok d)).isProcessing = false ∧
    (processQuestionResume s (Except.ok d)).isConversationActive = false := by
  have h := processQuestionResume_ok s d
  exact ⟨h.1, h.2.2.1, h.2.2.2.1, h.2.2.2.2.1, h.2.2.2.2.2.trans hstop⟩

/-- Claim C2 (amended) witness: the concrete stopped state of the
counterexample. -/
theorem C2_witness :
    (processQuestionResume (stopConversation { sample0 with isProcessing := true })
        (Except.ok { answer := "Late answer.", images := [], pages := [] })).spoken
      = ["Late answer."] ∧
    (processQuestionResume (stopConversation { sample0 with isProcessing := true })
        (Except.ok { answer := "Late answer.", images := [], pages := [] })).isConversationActive
      = false := by
  have h := C2_late_response_not_guarded
    (stopConversation { sample0 with isProcessing := true })
    { answer := "Late answer.", images := [], pages := [] } (by decide)
  refine ⟨?_, h.2.2.2.2⟩
  rw [h.2.1]
  decide

/-- Claim C10: a finalized transcript of trimmed length 1 or 2 is not
fully ignored: it overwrites `lastTranscript` and replaces the pending
debounce timer with a fresh one; when a timer then fires, the
`processQuestion` guard rejects the short transcript, so no `/ask`
request is ever issued — in particular a previously finalized longer
transcript whose silence window had not yet elapsed is never
dispatched. -/
theorem C10_short_final_cancels (s : VCState) (raw : String)
    (h1 : 0 < (jsTrim raw).length) (h2 : (jsTrim raw).length < 3) :
    (onresult s raw true).lastTranscript = jsTrim raw ∧
    (onresult s raw true).silenceTimeout = some s.nextTimer ∧
    (∀ k, s.silenceTimeout = some k → k < s.nextTimer →
      (onresult s raw true).silenceTimeout ≠ some k) ∧
    (∀ id resp, (timerFire (onresult s raw true) id resp).asks = s.asks) := by
  have hf := onresult_final_fields s raw h1
  refine ⟨hf.1, hf.2.1, ?_, ?_⟩
  · intro k _ hk
    rw [hf.2.1]
    intro he
    injection he with he
    omega
  · intro id resp
    by_cases hid : id = s.nextTimer
    · subst hid
      rw [timerFire, if_pos hf.2.1]
      have hshort : (onresult s raw true).lastTranscript.length < 3 := by
        rw [hf.1]; exact h2
      show (processQuestion _ _ resp).asks = s.asks
      rw [processQuestion_short _ _ resp hshort]
      exact hf.2.2.2.2
    · rw [timerFire, if_neg]
      · exact hf.2.2.2.2
      · rw [hf.2.1]
        intro he
        injection he with he
        exact hid he.symm

/-- Claim C10 witness: the pending question "tell me more" of the
speaking sample state is cancelled by the short final transcript "no":
after the new timer fires nothing was asked. -/
theorem C10_witness :
    (onresult sampleSpeaking "no" true).lastTranscript = "no" ∧
    (onresult sampleSpeaking "no" true).silenceTimeout = some 1 ∧
    (timerFire (onresult sampleSpeaking "no" true) 1 (Except.error ())).asks = [] := by
  have h := C10_short_final_cancels sampleSpeaking "no" (by decide) (by decide)
  exact ⟨h.1, h.2.1, h.2.2.2 1 (Except.error ())⟩

/-- A timer whose handle is not the installed pending one does nothing
when it fires. -/
theorem timerFire_not_pending (s : VCState) (k : Nat)
    (resp : Except Unit AnswerPayload) (h : ¬s.silenceTimeout = some k) :
    timerFire s k resp = s := by
  rw [timerFire, if_neg h]

/-- The installed pending timer fires: the current `lastTranscript` is
dispatched, and afterwards no timer is pending any more (the handle is
consumed — it can never fire twice). -/
theorem timerFire_pending (s : VCState) (id : Nat)
    (resp : Except Unit AnswerPayload) (h : s.silenceTimeout = some id) :
    (timerFire s id resp).dispatches = s.dispatches ++ [s.lastTranscript] ∧
    (timerFire s id resp).silenceTimeout = none := by
  rw [timerFire, if_pos h]
  constructor
  · show (processQuestion _ _ resp).dispatches = _
    rw [(processQuestion_fields _ _ resp).2.1]
  · show (processQuestion _ _ resp).silenceTimeout = none
    rw [(processQuestion_fields _ _ resp).1]

/-- Claim C4: for a burst of non-empty finalized transcripts each
arriving before the previous silence window elapsed (so no timer fired
in between), the single outstanding debounce timer is the one installed
by the last transcript; firing it dispatches exactly the last
transcript; every replaced timer handle is dead; and the surviving
timer cannot fire twice. -/
theorem C4_debounce_coalescing (s : VCState) (pre : List String) (t : String)
    (hpre : ∀ x ∈ pre, 0 < (jsTrim x).length) (ht : 0 < (jsTrim t).length) :
    ((pre ++ [t]).foldl (fun a u => onresult a u true) s).lastTranscript = jsTrim t ∧
    ((pre ++ [t]).foldl (fun a u => onresult a u true) s).silenceTimeout
      = some (s.nextTimer + pre.length) ∧
    (∀ resp, (timerFire ((pre ++ [t]).foldl (fun a u => onresult a u true) s)
        (s.nextTimer + pre.length) resp).dispatches
      = s.dispatches ++ [jsTrim t]) ∧
    (∀ k resp, k ≠ s.nextTimer + pre.length →
      timerFire ((pre ++ [t]).foldl (fun a u => onresult a u true) s) k resp
        = (pre ++ [t]).foldl (fun a u => onresult a u true) s) ∧
    (∀ resp k resp2,
      timerFire (timerFire ((pre ++ [t]).foldl (fun a u => onresult a u true) s)
          (s.nextTimer + pre.length) resp) k resp2
        = timerFire ((pre ++ [t]).foldl (fun a u => onresult a u true) s)
            (s.nextTimer + pre.length) resp) := by
  have hsplit : (pre ++ [t]).foldl (fun a u => onresult a u true) s
      = onresult (pre.foldl (fun a u => onresult a u true) s) t true := by
    rw [List.foldl_append]
    rfl
  have hm := foldl_onresult_fields pre s hpre
  have hf := onresult_final_fields (pre.foldl (fun a u => onresult a u true) s) t ht
  have hX : ((pre ++ [t]).foldl (fun a u => onresult a u true) s).silenceTimeout
      = some (s.nextTimer + pre.length) := by
    rw [hsplit, hf.2.1, hm.1]
  refine ⟨?_, hX, ?_, ?_, ?_⟩
  · rw [hsplit]
    exact hf.1
  · intro resp
    rw [(timerFire_pending _ _ resp hX).1, hsplit, hf.2.2.2.1, hf.1, hm.2.1]
  · intro k resp hk
    apply timerFire_not_pending
    rw [hX]
    intro he
    injection he with he
    exact hk he.symm
  · intro resp k resp2
    apply timerFire_not_pending
    rw [(timerFire_pending _ _ resp hX).2]
    simp

/-- Claim C4 witness: two finalized transcripts inside one silence
window; the surviving timer (handle 1) dispatches only the second. -/
theorem C4_witness :
    (timerFire ((["first question"] ++ ["second question"]).foldl
        (fun a u => onresult a u true) sample0) 1 (Except.error ())).dispatches
      = sample0.dispatches ++ [jsTrim "second question"] :=
  (C4_debounce_coalescing sample0 ["first question"] "second question"
    (by decide) (by decide)).2.2.1 (Except.error ())

/-- An interrupting transcript (controller speaking, trimmed length over
3): speech stops, synthesis is cancelled, the status shows Listening,
and the timer pending at arrival is gone — replaced by a fresh handle
when the transcript was final, simply cleared when it was interim. -/
theorem onresult_interrupting (s : VCState) (raw : String) (isF : Bool)
    (hs : s.isSpeaking = true) (hlen : 3 < (jsTrim raw).length) :
    (onresult s raw isF).isSpeaking = false ∧
    (onresult s raw isF).synthSpeaking = false ∧
    (onresult s raw isF).status = Status.listening ∧
    (onresult s raw isF).silenceTimeout
      = (if isF = true then some s.nextTimer else none) ∧
    (s.synthSpeaking = true → (onresult s raw isF).cancels = s.cancels + 1) := by
  have h0 : 0 < (jsTrim raw).length := by omega
  have h1 := handleInterruption_speaking (updateUserSpeech s (jsTrim raw) (!isF)) hs
  simp only [onresult]
  rw [if_pos (show (updateUserSpeech s (jsTrim raw) (!isF)).isSpeaking = true
      ∧ 3 < (jsTrim raw).length from ⟨hs, hlen⟩)]
  cases isF with
  | true =>
      rw [if_pos ⟨rfl, h0⟩]
      refine ⟨h1.1, h1.2.1, h1.2.2.2.1, ?_, fun hsy => h1.2.2.2.2.1 hsy⟩
      show some (handleInterruption (updateUserSpeech s (jsTrim raw) (!true))).nextTimer
        = if true = true then some s.nextTimer else none
      rw [h1.2.2.2.2.2]
      rfl
  | false =>
      rw [if_neg (by simp)]
      exact ⟨h1.1, h1.2.1, h1.2.2.2.1, h1.2.2.1, fun hsy => h1.2.2.2.2.1 hsy⟩

/-- Claim C1: if the controller is Speaking and either an interim or
finalized transcript of trimmed length over the minimal length arrives,
or an audio-level sample exceeds the interruption threshold (35) during
an active, monitored conversation, then the controller cancels
synthesis, clears the silence/debounce timer that was pending, and
transitions to Listening.  (A finalized transcript additionally installs
a fresh debounce timer for itself, so its handle differs from every
previously pending one.) -/
theorem C1_barge_in (s : VCState) (level : Nat) (raw : String) (isF : Bool) (k : Nat)
    (hs : s.isSpeaking = true)
    (hw : ∀ j, s.silenceTimeout = some j → j < s.nextTimer) :
    (s.isConversationActive = true → s.analyser = true →
      interruptionThreshold < level →
      (checkAudioLevel s level).isSpeaking = false ∧
      (checkAudioLevel s level).synthSpeaking = false ∧
      (checkAudioLevel s level).silenceTimeout = none ∧
      (checkAudioLevel s level).status = Status.listening ∧
      (s.synthSpeaking = true → (checkAudioLevel s level).cancels = s.cancels + 1)) ∧
    (3 < (jsTrim raw).length →
      (onresult s raw isF).isSpeaking = false ∧
      (onresult s raw isF).synthSpeaking = false ∧
      (onresult s raw isF).status = Status.listening ∧
      (s.silenceTimeout = some k → (onresult s raw isF).silenceTimeout ≠ some k) ∧
      (isF = false → (onresult s raw isF).silenceTimeout = none) ∧
      (s.synthSpeaking = true → (onresult s raw isF).cancels = s.cancels + 1)) := by
  constructor
  · intro hact han hlev
    have hcond : ¬(s.isConversationActive = false ∨ s.analyser = false) := by
      simp [hact, han]
    have h1 := handleInterruption_speaking (updateVolumeIndicator s level) hs
    have hstep : checkAudioLevel s level
        = handleInterruption (updateVolumeIndicator s level) := by
      simp only [checkAudioLevel]
      rw [if_neg hcond,
        if_pos (show (updateVolumeIndicator s level).isSpeaking = true
          ∧ interruptionThreshold < level from ⟨hs, hlev⟩)]
    rw [hstep]
    exact ⟨h1.1, h1.2.1, h1.2.2.1, h1.2.2.2.1, fun hsy => h1.2.2.2.2.1 hsy⟩
  · intro hlen
    have h2 := onresult_interrupting s raw isF hs hlen
    refine ⟨h2.1, h2.2.1, h2.2.2.1, ?_, ?_, h2.2.2.2.2⟩
    · intro hk
      have hkn := hw k hk
      rw [h2.2.2.2.1]
      cases isF with
      | true =>
          simp only [if_pos rfl]
          intro he
          injection he with he
          omega
      | false => simp
    · intro hisf
      rw [h2.2.2.2.1, hisf]
      simp

/-- Claim C1 witness: the speaking sample state (pending timer handle 0,
live synthesizer), interrupted by an audio sample of level 40 and,
separately, by the interim transcript "wait stop that is wrong". -/
theorem C1_witness :
    (checkAudioLevel sampleSpeaking 40).isSpeaking = false ∧
    (checkAudioLevel sampleSpeaking 40).silenceTimeout = none ∧
    (checkAudioLevel sampleSpeaking 40).cancels = sampleSpeaking.cancels + 1 ∧
    (onresult sampleSpeaking "wait stop that is wrong" false).isSpeaking = false ∧
    (onresult sampleSpeaking "wait stop that is wrong" false).silenceTimeout = none ∧
    (onresult sampleSpeaking "wait stop that is wrong" false).status = Status.listening := by
  have h := C1_barge_in sampleSpeaking 40 "wait stop that is wrong" false 0 rfl
    (by
      intro j hj
      have hj2 : some 0 = some j := hj
      injection hj2 with hj2
      show j < 1
      omega)
  have ha := h.1 rfl rfl (by decide)
  have hb := h.2 (by decide)
  exact ⟨ha.1, ha.2.2.1, ha.2.2.2.2 rfl, hb.1, hb.2.2.2.2.1 rfl, hb.2.2.1⟩

/-- Claim C8: the text handed to speech synthesis by `speak` is the
cleaned text — with every star (bold/italic markers) and every backtick
(inline-code markers) removed, and markdown links and heading markers
deleted by the source's replacement passes, as the concrete round-trip
instance shows — while `displayAnswer` renders the original answer
string unchanged. -/
theorem C8_markup_stripped (s : VCState) (text answer : String)
    (images : List (Nat × String)) (pages : List Nat) :
    (speak s text).spoken = s.spoken ++ [cleanText text] ∧
    (speak s text).currentUtterance = some (cleanText text) ∧
    '*' ∉ (cleanText text).data ∧
    backquote ∉ (cleanText text).data ∧
    (displayAnswer s answer images pages).answerText = answer ∧
    cleanText "## Heading **bold** *italic* `code` [link](http://e.com) done"
      = "Heading bold italic code  done" := by
  refine ⟨?_, rfl, cleanText_no_star text, cleanText_no_backquote text, rfl, by decide⟩
  simp only [speak, stopSpeaking]
  split <;> simp

/-- Claim C8 witness: a concrete markdown answer spoken from the sample
state. -/
theorem C8_witness :
    (speak sample0 "**bold** and `code`").spoken = [cleanText "**bold** and `code`"] ∧
    cleanText "## Heading **bold** *italic* `code` [link](http://e.com) done"
      = "Heading bold italic code  done" := by
  have h := C8_markup_stripped sample0 "**bold** and `code`" "an answer" [] []
  exact ⟨h.1, h.2.2.2.2.2⟩
